import Mathlib

/-!
# Student records API (`src/index.js`)

A shallow embedding of the five Express handlers of `src/index.js`
(`POST /login`, `POST /register`, `GET /students/search/:id`,
`PUT /students/update/:id`, `DELETE /students/delete/:id`) together with the
table `student_management` they query through the Supabase client.

The table lives in an external service.  It is modelled as the list of its rows,
with the operations the handlers use: filtered select, insert, update and delete
by column equality, and `.single()`, which yields the row when the result holds
exactly one row and an error otherwise.  Every call to the service may also fail
as a whole; the client then resolves to `{ data: null, error }` and the table is
as it was.

Conventions of the embedding:

* `id` is the primary key of the table, a number the service assigns; the other
  three columns are text and carry no uniqueness constraint (none is visible in
  the source).
* The rows of the table are those the handlers wrote: register inserts a row only
  when name, email and password pass `if (!x)`, and update overwrites a column
  only with a value that passes `if (x)`, so every column holds a non-empty text.
* The fields of a request body are a text, `null` or absent; `if (!x)` is the
  test that `x` is not a non-empty text.
* An update without any column changes and returns no row, so that `.single()`
  reports its error.
* A handler is a function from the world before the request (table, outcome of the
  upcoming calls, calls logged so far) to the response and the world afterwards;
  `throw` inside `try` is the 500 answer of the `catch` block.
-/

namespace StudentApi

/-! ## Data model -/

/-- One row of the table `student_management`. -/
structure Student where
  id : Nat
  sname : String
  semail : String
  spassword : String
deriving DecidableEq, Repr

/-- The table: its rows in insertion order; `id` is the primary key, so no two
rows carry the same identifier; name, email and password of a row are non-empty,
as the handlers write no other rows. -/
structure Store where
  rows : List Student
  key : (rows.map Student.id).Nodup
  filled : ∀ r ∈ rows, r.sname ≠ "" ∧ r.semail ≠ "" ∧ r.spassword ≠ ""

/-- A non-empty text: a value that passes the test `if (x)`. -/
abbrev Text := { s : String // s ≠ "" }

/-- A field of a JSON request body as the handlers read it after destructuring:
missing (`undefined`), `null`, or a text value. -/
inductive Field where
  | absent
  | null
  | str (s : String)
deriving DecidableEq, Repr

/-- JavaScript truthiness of a body field: `some s` when the field is a
non-empty string (the test `if (x)` succeeds), `none` when `!x` holds. -/
def Field.truthy : Field → Option Text
  | .str s => if h : s = "" then none else some ⟨s, h⟩
  | _ => none

/-- One `.eq(column, value)` link of a query builder chain.  The `:id` route
parameter is `none` when it is empty (the only falsy parameter) and `some k`
when it denotes the key `k`. -/
inductive Cond where
  | id (v : Option Nat)
  | semail (v : String)
  | spassword (v : String)
deriving DecidableEq, Repr

/-- Whether a row satisfies one equality filter. -/
def Cond.holds : Cond → Student → Bool
  | .id v, r => v == some r.id
  | .semail v, r => r.semail == v
  | .spassword v, r => r.spassword == v

/-- A chain of `.eq` filters selects the rows that satisfy each of them. -/
def matchesAll (f : List Cond) (r : Student) : Bool :=
  f.all (fun c => c.holds r)

/-- The object `updateData` of the update handler: a column is present exactly
when the handler assigned it. -/
structure Patch where
  sname : Option Text
  semail : Option Text
  spassword : Option Text
deriving DecidableEq

/-- The value of a column after a patch: the new text when the patch carries the
column, the old one otherwise. -/
def overwrite (new : Option Text) (old : String) : String :=
  match new with
  | some v => v.val
  | none => old

/-- Overwrite the columns present in the patch. -/
def Patch.apply (p : Patch) (r : Student) : Student :=
  { id := r.id
    sname := overwrite p.sname r.sname
    semail := overwrite p.semail r.semail
    spassword := overwrite p.spassword r.spassword }

/-- The patch `{}`: the handler assigned no column. -/
def Patch.isEmpty (p : Patch) : Bool :=
  p.sname.isNone && p.semail.isNone && p.spassword.isNone

/-- What an awaited query resolves to: `{ data, error }`. -/
structure QueryResult where
  data : Option Student
  error : Option String
deriving DecidableEq, Repr

/-- The message of the error `.single()` reports when the result does not hold
exactly one row. -/
def singleError : String := "JSON object requested, multiple (or no) rows returned"

/-- The modifier `.single()`: the row when exactly one row came back, an error
otherwise. -/
def single : List Student → QueryResult
  | [r] => { data := some r, error := none }
  | _ => { data := none, error := some singleError }

/-! ## The table operations -/

/-- The identifier the service assigns to a new row: one above the largest
identifier in the table. -/
def freshId (rows : List Student) : Nat :=
  (rows.map Student.id).foldr max 0 + 1

/-- Insert: `.insert([{ sname, semail, spassword }])` appends one row under a
fresh identifier. -/
def Store.insert (db : Store) (n e p : Text) : Store where
  rows := db.rows ++
    [{ id := freshId db.rows, sname := n.val, semail := e.val, spassword := p.val }]
  filled := by
    intro r hr
    rcases List.mem_append.mp hr with h | h
    · exact db.filled r h
    · rw [List.mem_singleton] at h
      subst h
      exact ⟨n.property, e.property, p.property⟩
  key := by
    have hle : ∀ l : List Nat, ∀ a ∈ l, a ≤ l.foldr max 0 := by
      intro l
      induction l with
      | nil => intro a h; cases h
      | cons b t ih =>
        intro a h
        rcases List.mem_cons.mp h with rfl | h
        · exact le_max_left _ _
        · exact le_trans (ih a h) (le_max_right _ _)
    rw [List.map_append, List.nodup_append]
    refine ⟨db.key, by simp, ?_⟩
    intro a ha hb
    simp only [List.map_cons, List.map_nil, List.mem_singleton] at hb
    subst hb
    have := hle _ _ ha
    unfold freshId at this
    omega

/-- Update: `.update(updateData)` under a filter chain patches every row the
filters select. -/
def Store.update (db : Store) (p : Patch) (f : List Cond) : Store where
  rows := db.rows.map (fun r => if matchesAll f r then p.apply r else r)
  filled := by
    have hov : ∀ (v : Option Text) (old : String), old ≠ "" → overwrite v old ≠ "" := by
      intro v old h
      cases v with
      | none => exact h
      | some t => exact t.property
    intro r hr
    obtain ⟨x, hx, rfl⟩ := List.mem_map.mp hr
    have hf := db.filled x hx
    split
    · exact ⟨hov _ _ hf.1, hov _ _ hf.2.1, hov _ _ hf.2.2⟩
    · exact hf
  key := by
    have h : (db.rows.map (fun r => if matchesAll f r then p.apply r else r)).map Student.id
        = db.rows.map Student.id := by
      rw [List.map_map]
      apply List.map_congr_left
      intro r _
      simp only [Function.comp]
      split <;> rfl
    rw [h]
    exact db.key

/-- Delete: `.delete()` under a filter chain removes every row the filters
select. -/
def Store.delete (db : Store) (f : List Cond) : Store where
  rows := db.rows.filter (fun r => !matchesAll f r)
  filled := fun r hr => db.filled r (List.mem_of_mem_filter hr)
  key := (db.key.sublist ((List.filter_sublist _).map _))

/-- The calls the handlers issue against the table. -/
inductive Call where
  /-- The query `.select('*')` under a filter chain, with `.single()`. -/
  | select (f : List Cond)
  /-- The query `.insert([{ sname, semail, spassword }]).select().single()`. -/
  | insert (sname semail spassword : Text)
  /-- The query `.update(updateData)` under a filter chain, with `.select().single()`. -/
  | update (p : Patch) (f : List Cond)
  /-- The query `.delete()` under a filter chain. -/
  | delete (f : List Cond)
deriving DecidableEq

/-- What a call does when the service carries it out: its result and the table
afterwards.  An update whose patch is `{}` names no column: the service changes
no row and returns none, so `.single()` reports its error. -/
def exec (c : Call) (db : Store) : QueryResult × Store :=
  match c with
  | .select f => (single (db.rows.filter (matchesAll f)), db)
  | .insert n e p =>
    (single [{ id := freshId db.rows, sname := n.val, semail := e.val, spassword := p.val }],
      db.insert n e p)
  | .update p f =>
    if p.isEmpty then (single [], db)
    else (single ((db.rows.filter (matchesAll f)).map p.apply), db.update p f)
  | .delete f => ({ data := none, error := none }, db.delete f)

/-- The world a handler runs in: the table, for each upcoming call whether the
service fails it (`some message`) or carries it out (`none`, also once the
list is used up), and the calls issued so far. -/
structure World where
  db : Store
  faults : List (Option String)
  log : List Call

/-- A world in which no call fails and none was issued yet. -/
def World.quiet (db : Store) : World :=
  { db := db, faults := [], log := [] }

/-- Await one call: a failed call resolves to `{ data: null, error }` and leaves
the table alone; otherwise the service carries it out. -/
def send (c : Call) (w : World) : QueryResult × World :=
  match w.faults with
  | some msg :: rest =>
    ({ data := none, error := some msg },
      { db := w.db, faults := rest, log := w.log ++ [c] })
  | _ =>
    ((exec c w.db).1,
      { db := (exec c w.db).2, faults := w.faults.tail, log := w.log ++ [c] })

/-! ## Requests and responses -/

/-- The JSON body of a response. -/
inductive Body where
  /-- The body `{ error }`. -/
  | error (msg : String)
  /-- The body `{ message, student: { id, name, email } }` of the login handler. -/
  | login (message : String) (id : Nat) (name email : String)
  /-- The body `{ message, student: data }` of the register and update handlers. -/
  | withStudent (message : String) (student : Option Student)
  /-- The body `res.json(data)` of the search handler. -/
  | record (data : Option Student)
  /-- The body `{ message }` of the delete handler. -/
  | message (msg : String)
deriving DecidableEq, Repr

/-- A response: status code and body (`res.json` without `res.status` answers 200). -/
structure Response where
  status : Nat
  body : Body
deriving DecidableEq, Repr

/-- Body of `POST /login`. -/
structure LoginReq where
  semail : Field
  spassword : Field

/-- Body of `POST /register`. -/
structure RegisterReq where
  sname : Field
  semail : Field
  spassword : Field

/-- Body of `PUT /students/update/:id`. -/
structure UpdateReq where
  sname : Field
  semail : Field
  spassword : Field
  currentEmail : Field
  currentPassword : Field

/-- Body of `DELETE /students/delete/:id`. -/
structure DeleteReq where
  currentEmail : Field
  currentPassword : Field

/-! ## The handlers -/

/-- Handler `app.post("/login")`. -/
def login (req : LoginReq) (w : World) : Response × World :=
  match req.semail.truthy, req.spassword.truthy with
  | some semail, some spassword =>
    let (res, w1) := send (.select [.semail semail.val, .spassword spassword.val]) w
    match res.error, res.data with
    | none, some student =>
      ({ status := 200
         body := .login "Login successful" student.id student.sname student.semail }, w1)
    | _, _ => ({ status := 401, body := .error "Invalid credentials" }, w1)
  | _, _ => ({ status := 400, body := .error "Email and password are required" }, w)

/-- Handler `app.post("/register")`. -/
def register (req : RegisterReq) (w : World) : Response × World :=
  match req.sname.truthy, req.semail.truthy, req.spassword.truthy with
  | some sname, some semail, some spassword =>
    let (chk, w1) := send (.select [.semail semail.val]) w
    match chk.data with
    | some _ =>
      ({ status := 400, body := .error "Student already exists with this email" }, w1)
    | none =>
      let (ins, w2) := send (.insert sname semail spassword) w1
      match ins.error with
      | some msg => ({ status := 500, body := .error msg }, w2)
      | none =>
        ({ status := 201, body := .withStudent "Student added successfully" ins.data }, w2)
  | _, _, _ =>
    ({ status := 400, body := .error "Name, email and password are required" }, w)

/-- Handler `app.get("/students/search/:id")`. -/
def search (id : Option Nat) (w : World) : Response × World :=
  match id with
  | none => ({ status := 400, body := .error "Student ID is required" }, w)
  | some _ =>
    let (res, w1) := send (.select [.id id]) w
    match res.error with
    | some _ => ({ status := 404, body := .error "Student not found" }, w1)
    | none => ({ status := 200, body := .record res.data }, w1)

/-- The message of the 403 answer of update and delete. -/
def authFailed : String := "Authentication failed. Please provide correct credentials."

/-- The message of the 400 answer of update and delete. -/
def authRequired : String := "Current email and password are required for authentication"

/-- Handler `app.put("/students/update/:id")`. -/
def update (id : Option Nat) (req : UpdateReq) (w : World) : Response × World :=
  match req.currentEmail.truthy, req.currentPassword.truthy with
  | some currentEmail, some currentPassword =>
    let (auth, w1) :=
      send (.select [.id id, .semail currentEmail.val, .spassword currentPassword.val]) w
    match auth.error, auth.data with
    | none, some _ =>
      let updateData : Patch :=
        { sname := req.sname.truthy
          semail := req.semail.truthy
          spassword := req.spassword.truthy }
      let (upd, w2) := send (.update updateData [.id id]) w1
      match upd.error with
      | some msg => ({ status := 500, body := .error msg }, w2)
      | none =>
        match upd.data with
        | none => ({ status := 404, body := .error "Student not found" }, w2)
        | some _ =>
          ({ status := 200, body := .withStudent "Student updated successfully" upd.data }, w2)
    | _, _ => ({ status := 403, body := .error authFailed }, w1)
  | _, _ => ({ status := 400, body := .error authRequired }, w)

/-- Handler `app.delete("/students/delete/:id")`. -/
def delete (id : Option Nat) (req : DeleteReq) (w : World) : Response × World :=
  match req.currentEmail.truthy, req.currentPassword.truthy with
  | some currentEmail, some currentPassword =>
    let (auth, w1) :=
      send (.select [.id id, .semail currentEmail.val, .spassword currentPassword.val]) w
    match auth.error, auth.data with
    | none, some _ =>
      let (del, w2) := send (.delete [.id id]) w1
      match del.error with
      | some msg => ({ status := 500, body := .error msg }, w2)
      | none => ({ status := 200, body := .message "Student deleted successfully" }, w2)
    | _, _ => ({ status := 403, body := .error authFailed }, w1)
  | _, _ => ({ status := 400, body := .error authRequired }, w)

/-- No two rows share an email. -/
def EmailsUnique (db : Store) : Prop :=
  (db.rows.map Student.semail).Nodup

instance (db : Store) : Decidable (EmailsUnique db) := by
  unfold EmailsUnique; infer_instance

/-- A body field that counts as missing: absent, `null` or the empty string. -/
def Field.missing (f : Field) : Prop :=
  f = .absent ∨ f = .null ∨ f = .str ""

instance (f : Field) : Decidable f.missing := by
  unfold Field.missing; infer_instance

/-- The row that a successful registration creates. -/
def created (db : Store) (n e p : String) : Student :=
  { id := freshId db.rows, sname := n, semail := e, spassword := p }

/-- How update treats one column: a missing field keeps the old value, a
non-empty text overwrites it. -/
def Field.written (f : Field) (old new : String) : Prop :=
  (f.missing ∧ new = old) ∨ (∃ v, v ≠ "" ∧ f = .str v ∧ new = v)

/-- The patch the update handler builds from a request body. -/
def patchOf (sname semail spassword : Field) : Patch :=
  { sname := sname.truthy, semail := semail.truthy, spassword := spassword.truthy }

/-! ## Sample data -/

/-- A sample row. -/
def ann : Student := { id := 1, sname := "Ann", semail := "ann@x.org", spassword := "pw1" }

/-- A second sample row. -/
def bob : Student := { id := 2, sname := "Bob", semail := "bob@x.org", spassword := "pw2" }

/-- A table with two students. -/
def annBob : Store := { rows := [ann, bob], key := by decide, filled := by decide }

/-- A second row under the email and password of Ann. -/
def amy : Student := { id := 2, sname := "Amy", semail := "ann@x.org", spassword := "pw1" }

/-- A table in which two students share email and password. -/
def twins : Store := { rows := [ann, amy], key := by decide, filled := by decide }

/-- The table before any registration. -/
def noRows : Store := { rows := [], key := by decide, filled := by decide }

/-! ## Auxiliary facts -/

theorem truthy_str {s : String} (h : s ≠ "") : (Field.str s).truthy = some ⟨s, h⟩ := by
  simp [Field.truthy, h]

theorem truthy_of_missing {f : Field} (h : f.missing) : f.truthy = none := by
  rcases h with rfl | rfl | rfl <;> simp [Field.truthy]

theorem send_quiet (c : Call) (db : Store) (log : List Call) :
    send c { db := db, faults := [], log := log }
      = ((exec c db).1, { db := (exec c db).2, faults := [], log := log ++ [c] }) := rfl

theorem send_ok (c : Call) (db : Store) (rest : List (Option String)) (log : List Call) :
    send c { db := db, faults := none :: rest, log := log }
      = ((exec c db).1, { db := (exec c db).2, faults := rest, log := log ++ [c] }) := rfl

theorem send_fail (c : Call) (db : Store) (msg : String) (rest : List (Option String))
    (log : List Call) :
    send c { db := db, faults := some msg :: rest, log := log }
      = ({ data := none, error := some msg }, { db := db, faults := rest, log := log ++ [c] }) :=
  rfl

/-- Whatever the faults, a select leaves the table as it was. -/
theorem send_select_db (f : List Cond) (w : World) : (send (.select f) w).2.db = w.db := by
  unfold send
  split <;> rfl

/-- A filter that only rows with the key of `r` can pass, and that `r` passes,
selects `r` alone; `k` is any column without repetition. -/
theorem filter_by_key {α : Type} (k : Student → α) {rows : List Student}
    (hk : (rows.map k).Nodup)
    {r : Student} (hr : r ∈ rows) (p : Student → Bool) (hp : p r = true)
    (hid : ∀ x ∈ rows, p x = true → k x = k r) : rows.filter p = [r] := by
  induction rows with
  | nil => cases hr
  | cons a t ih =>
    rw [List.map_cons, List.nodup_cons] at hk
    rcases List.mem_cons.mp hr with rfl | hrt
    · have hnil : t.filter p = [] := by
        rw [List.filter_eq_nil_iff]
        intro x hx hpx
        exact hk.1 (List.mem_map.mpr ⟨x, hx, hid x (List.mem_cons_of_mem _ hx) hpx⟩)
      rw [List.filter_cons, if_pos hp, hnil]
    · have hpa : ¬ p a = true := by
        intro hpa
        have := hid a (List.mem_cons_self _ _) hpa
        exact hk.1 (List.mem_map.mpr ⟨r, hrt, this.symm⟩)
      rw [List.filter_cons, if_neg hpa]
      exact ih hk.2 hrt (fun x hx => hid x (List.mem_cons_of_mem _ hx))

/-- Two different rows in a result make `.single()` report its error. -/
theorem single_of_two {l : List Student} {a b : Student} (ha : a ∈ l) (hb : b ∈ l)
    (hab : a ≠ b) : single l = { data := none, error := some singleError } := by
  match l, ha, hb with
  | [x], ha, hb =>
    rw [List.mem_singleton] at ha hb
    exact absurd (ha.trans hb.symm) hab
  | _ :: _ :: _, _, _ => rfl

theorem single_nil : single [] = { data := none, error := some singleError } := rfl

theorem single_one (r : Student) : single [r] = { data := some r, error := none } := rfl

/-! ## Register, then login -/

theorem register_fresh (db : Store) (n e p : String)
    (hn : n ≠ "") (he : e ≠ "") (hp : p ≠ "")
    (hnew : ∀ r ∈ db.rows, r.semail ≠ e) (log : List Call) :
    register { sname := .str n, semail := .str e, spassword := .str p }
        { db := db, faults := [], log := log }
      = ({ status := 201
           body := .withStudent "Student added successfully" (some (created db n e p)) },
         { db := db.insert ⟨n, hn⟩ ⟨e, he⟩ ⟨p, hp⟩, faults := []
           log := log ++ [.select [.semail e]] ++ [.insert ⟨n, hn⟩ ⟨e, he⟩ ⟨p, hp⟩] }) := by
  have hnil : db.rows.filter (matchesAll [.semail e]) = [] := by
    rw [List.filter_eq_nil_iff]
    intro x hx
    simpa [matchesAll, Cond.holds] using hnew x hx
  simp [register, truthy_str hn, truthy_str he, truthy_str hp, send_quiet, exec, hnil,
    single_nil, single_one, created]

/-- C1. Register-then-login round trip: on a table without a row of email `e`,
registering non-empty `n`, `e`, `p` answers 201 with the created row, and the
login with `e`, `p` that follows answers 200 with its name `n`, email `e` and the
identifier of the row register returned. -/
theorem register_then_login (db : Store) (n e p : String)
    (hn : n ≠ "") (he : e ≠ "") (hp : p ≠ "")
    (hnew : ∀ r ∈ db.rows, r.semail ≠ e) :
    ∃ r : Student,
      (register { sname := .str n, semail := .str e, spassword := .str p }
          (World.quiet db)).1
        = { status := 201, body := .withStudent "Student added successfully" (some r) } ∧
      r.sname = n ∧ r.semail = e ∧ r.spassword = p ∧
      r ∈ (register { sname := .str n, semail := .str e, spassword := .str p }
          (World.quiet db)).2.db.rows ∧
      (login { semail := .str e, spassword := .str p }
          (register { sname := .str n, semail := .str e, spassword := .str p }
            (World.quiet db)).2).1
        = { status := 200, body := .login "Login successful" r.id n e } := by
  refine ⟨created db n e p, ?_⟩
  have hfilter : (db.insert ⟨n, hn⟩ ⟨e, he⟩ ⟨p, hp⟩).rows.filter
        (matchesAll [.semail e, .spassword p])
      = [created db n e p] := by
    have hnil : db.rows.filter (matchesAll [.semail e, .spassword p]) = [] := by
      rw [List.filter_eq_nil_iff]
      intro x hx
      have := hnew x hx
      simp [matchesAll, Cond.holds, this]
    simp [Store.insert, List.filter_append, hnil, List.filter_cons, matchesAll, Cond.holds,
      created]
  rw [World.quiet, register_fresh db n e p hn he hp hnew]
  refine ⟨rfl, rfl, rfl, rfl, ?_, ?_⟩
  · simp [Store.insert, created]
  · simp [login, truthy_str he, truthy_str hp, send_quiet, exec, hfilter, single_one, created]

/-- C1, at a sample input: Cy registers on the table of Ann and Bob and logs in. -/
theorem register_then_login_witness :
    ∃ r : Student,
      (register { sname := .str "Cy", semail := .str "cy@x.org", spassword := .str "pw3" }
          (World.quiet annBob)).1
        = { status := 201, body := .withStudent "Student added successfully" (some r) } ∧
      r.sname = "Cy" ∧ r.semail = "cy@x.org" ∧ r.spassword = "pw3" ∧
      r ∈ (register { sname := .str "Cy", semail := .str "cy@x.org", spassword := .str "pw3" }
          (World.quiet annBob)).2.db.rows ∧
      (login { semail := .str "cy@x.org", spassword := .str "pw3" }
          (register { sname := .str "Cy", semail := .str "cy@x.org", spassword := .str "pw3" }
            (World.quiet annBob)).2).1
        = { status := 200, body := .login "Login successful" r.id "Cy" "cy@x.org" } :=
  register_then_login annBob "Cy" "cy@x.org" "pw3" (by decide) (by decide) (by decide)
    (by decide)

/-! ## Duplicate registration -/

/-- With exactly one row under the email, and the existence check carried out,
register answers 400 and leaves the table alone. -/
theorem register_existing (db : Store) (hu : EmailsUnique db) (r : Student) (hr : r ∈ db.rows)
    (n p : String) (hn : n ≠ "") (he : r.semail ≠ "") (hp : p ≠ "") :
    (register { sname := .str n, semail := .str r.semail, spassword := .str p }
        (World.quiet db)).1
      = { status := 400, body := .error "Student already exists with this email" } ∧
    (register { sname := .str n, semail := .str r.semail, spassword := .str p }
        (World.quiet db)).2.db = db := by
  have hone : db.rows.filter (matchesAll [.semail r.semail]) = [r] :=
    filter_by_key Student.semail hu hr _ (by simp [matchesAll, Cond.holds])
      (fun x _ hx => by simpa [matchesAll, Cond.holds] using hx)
  simp [register, truthy_str hn, truthy_str he, truthy_str hp, World.quiet, send_quiet, exec,
    hone, single_one]

/-- The table with two rows under one email and password arises through the
handlers: Ann and Bob register, then Bob updates his row to the name Amy and the
email and password of Ann. -/
theorem twins_reachable :
    (update (some 2)
        { sname := .str "Amy", semail := .str "ann@x.org", spassword := .str "pw1"
          currentEmail := .str "bob@x.org", currentPassword := .str "pw2" }
        (register { sname := .str "Bob", semail := .str "bob@x.org", spassword := .str "pw2" }
          (register { sname := .str "Ann", semail := .str "ann@x.org", spassword := .str "pw1" }
            (World.quiet noRows)).2).2).2.db.rows = twins.rows := by
  decide

/-- C2. Registering under an email that two rows already carry: the existence
check gets the error of `.single()` and no row, and register inserts a third row
under that email and answers 201. -/
theorem register_duplicate_email_accepted :
    ann ∈ twins.rows ∧ ann.semail = "ann@x.org" ∧
    (register { sname := .str "Cy", semail := .str "ann@x.org", spassword := .str "pw3" }
        (World.quiet twins)).1
      = { status := 201
          body := .withStudent "Student added successfully"
            (some { id := 3, sname := "Cy", semail := "ann@x.org", spassword := "pw3" }) } ∧
    (register { sname := .str "Cy", semail := .str "ann@x.org", spassword := .str "pw3" }
        (World.quiet twins)).2.db.rows
      = [ann, amy, { id := 3, sname := "Cy", semail := "ann@x.org", spassword := "pw3" }] := by
  decide

/-! ## Login -/

/-- C3, as stated, fails: two rows carry the email and password, and login with
them answers 401. -/
theorem login_twins_rejected :
    ann ∈ twins.rows ∧ ann.semail = "ann@x.org" ∧ ann.spassword = "pw1" ∧
    (login { semail := .str "ann@x.org", spassword := .str "pw1" } (World.quiet twins)).1
      = { status := 401, body := .error "Invalid credentials" } := by
  decide

/-- Login issues one select and nothing else: the table is the same afterwards. -/
theorem login_db (req : LoginReq) (w : World) : (login req w).2.db = w.db := by
  unfold login
  split
  · simp only []
    split <;> exact send_select_db _ _
  · rfl

/-- C3, amended. For non-empty `e`, `p` and carried-out query: login answers 200
with id, name and email of the row when exactly one row has email `e` and
password `p`; it answers 401 when no row has them, and also when two different
rows have them. Login never changes the table. -/
theorem login_exact_match (db : Store) (e p : String) (he : e ≠ "") (hp : p ≠ "") :
    (∀ r ∈ db.rows, r.semail = e → r.spassword = p →
        (∀ x ∈ db.rows, x.semail = e → x.spassword = p → x = r) →
        (login { semail := .str e, spassword := .str p } (World.quiet db)).1
          = { status := 200, body := .login "Login successful" r.id r.sname r.semail }) ∧
    ((∀ x ∈ db.rows, ¬ (x.semail = e ∧ x.spassword = p)) →
        (login { semail := .str e, spassword := .str p } (World.quiet db)).1
          = { status := 401, body := .error "Invalid credentials" }) ∧
    (∀ a ∈ db.rows, ∀ b ∈ db.rows, a ≠ b →
        a.semail = e → a.spassword = p → b.semail = e → b.spassword = p →
        (login { semail := .str e, spassword := .str p } (World.quiet db)).1
          = { status := 401, body := .error "Invalid credentials" }) ∧
    (∀ (req : LoginReq) (w : World), (login req w).2.db = w.db) := by
  refine ⟨?_, ?_, ?_, login_db⟩
  · intro r hr hre hrp huniq
    have hone : db.rows.filter (matchesAll [.semail e, .spassword p]) = [r] :=
      filter_by_key Student.id db.key hr _ (by simp [matchesAll, Cond.holds, hre, hrp])
        (fun x hx hpx => by
          simp only [matchesAll, Cond.holds, List.all_cons, List.all_nil, Bool.and_true,
            Bool.and_eq_true, beq_iff_eq] at hpx
          rw [huniq x hx hpx.1 hpx.2])
    simp [login, truthy_str he, truthy_str hp, World.quiet, send_quiet, exec, hone, single_one]
  · intro hnone
    have hnil : db.rows.filter (matchesAll [.semail e, .spassword p]) = [] := by
      rw [List.filter_eq_nil_iff]
      intro x hx
      simpa [matchesAll, Cond.holds] using hnone x hx
    simp [login, truthy_str he, truthy_str hp, World.quiet, send_quiet, exec, hnil, single_nil]
  · intro a ha b hb hab hae hap hbe hbp
    have hmany : single (db.rows.filter (matchesAll [.semail e, .spassword p]))
        = { data := none, error := some singleError } :=
      single_of_two
        (List.mem_filter.mpr ⟨ha, by simp [matchesAll, Cond.holds, hae, hap]⟩)
        (List.mem_filter.mpr ⟨hb, by simp [matchesAll, Cond.holds, hbe, hbp]⟩) hab
    simp [login, truthy_str he, truthy_str hp, World.quiet, send_quiet, exec, hmany]

/-- C3, amended, at sample inputs: Ann logs in on the table of Ann and Bob. -/
theorem login_exact_match_witness :
    (login { semail := .str "ann@x.org", spassword := .str "pw1" } (World.quiet annBob)).1
      = { status := 200, body := .login "Login successful" 1 "Ann" "ann@x.org" } :=
  (login_exact_match annBob "ann@x.org" "pw1" (by decide) (by decide)).1 ann (by decide)
    rfl rfl (by decide)

/-! ## Authorisation of update and delete -/

/-- The credential query of update and delete resolves without a row when no row
has the key and the credentials, whether the service fails the call or not. -/
theorem auth_select_none (id : Option Nat) (ce cp : String) (w : World)
    (hno : ∀ r ∈ w.db.rows, ¬ (some r.id = id ∧ r.semail = ce ∧ r.spassword = cp)) :
    (send (.select [.id id, .semail ce, .spassword cp]) w).1.data = none := by
  have hnil : w.db.rows.filter (matchesAll [.id id, .semail ce, .spassword cp]) = [] := by
    rw [List.filter_eq_nil_iff]
    intro x hx
    have := hno x hx
    simp only [matchesAll, Cond.holds, List.all_cons, List.all_nil, Bool.and_true,
      Bool.and_eq_true, beq_iff_eq]
    intro h
    exact this ⟨h.1.symm, h.2.1, h.2.2⟩
  unfold send
  split
  · rfl
  · simp [exec, hnil, single_nil]

/-- C5. Update and delete are authorised against the row at the addressed id:
with non-empty current credentials that no row of that id carries, both answer
403 and leave the table unchanged, whatever else the request holds and whether
or not the service fails the credential query. -/
theorem update_delete_unauthorised (w : World) (id : Option Nat) (ce cp : String)
    (hce : ce ≠ "") (hcp : cp ≠ "")
    (hno : ∀ r ∈ w.db.rows, ¬ (some r.id = id ∧ r.semail = ce ∧ r.spassword = cp))
    (sname semail spassword : Field) :
    (update id { sname := sname, semail := semail, spassword := spassword
                 currentEmail := .str ce, currentPassword := .str cp } w).1
      = { status := 403, body := .error authFailed } ∧
    (update id { sname := sname, semail := semail, spassword := spassword
                 currentEmail := .str ce, currentPassword := .str cp } w).2.db = w.db ∧
    (delete id { currentEmail := .str ce, currentPassword := .str cp } w).1
      = { status := 403, body := .error authFailed } ∧
    (delete id { currentEmail := .str ce, currentPassword := .str cp } w).2.db = w.db := by
  have hd := auth_select_none id ce cp w hno
  have hdb := send_select_db [.id id, .semail ce, .spassword cp] w
  rcases hs : send (.select [.id id, .semail ce, .spassword cp]) w with ⟨⟨d, er⟩, w1⟩
  rw [hs] at hd hdb
  simp only at hd hdb
  subst hd
  cases er <;> simp [update, delete, truthy_str hce, truthy_str hcp, hs, hdb]

/-- C5, at a sample input: the credentials of Ann presented at the id of Bob. -/
theorem update_delete_unauthorised_witness :
    (update (some 2) { sname := .str "Mallory", semail := .absent, spassword := .absent
                       currentEmail := .str "ann@x.org", currentPassword := .str "pw1" }
        (World.quiet annBob)).1
      = { status := 403, body := .error authFailed } ∧
    (update (some 2) { sname := .str "Mallory", semail := .absent, spassword := .absent
                       currentEmail := .str "ann@x.org", currentPassword := .str "pw1" }
        (World.quiet annBob)).2.db = (World.quiet annBob).db ∧
    (delete (some 2) { currentEmail := .str "ann@x.org", currentPassword := .str "pw1" }
        (World.quiet annBob)).1
      = { status := 403, body := .error authFailed } ∧
    (delete (some 2) { currentEmail := .str "ann@x.org", currentPassword := .str "pw1" }
        (World.quiet annBob)).2.db = (World.quiet annBob).db :=
  update_delete_unauthorised (World.quiet annBob) (some 2) "ann@x.org" "pw1" (by decide)
    (by decide) (by decide) (.str "Mallory") .absent .absent

/-! ## Missing fields -/

/-- C7. Missing required fields are rejected before the table is touched: login
without `semail` or `spassword`, register without `sname`, `semail` or
`spassword`, update and delete without `currentEmail` or `currentPassword` (a
field being missing when absent, `null` or empty) answer 400 with an error body
and return the world as it was: same table, no call issued, whatever the other
fields, the table and the faults. -/
theorem missing_fields_rejected (w : World) :
    (∀ req : LoginReq, req.semail.missing ∨ req.spassword.missing →
      login req w = ({ status := 400, body := .error "Email and password are required" }, w)) ∧
    (∀ req : RegisterReq, req.sname.missing ∨ req.semail.missing ∨ req.spassword.missing →
      register req w
        = ({ status := 400, body := .error "Name, email and password are required" }, w)) ∧
    (∀ (id : Option Nat) (req : UpdateReq),
      req.currentEmail.missing ∨ req.currentPassword.missing →
      update id req w = ({ status := 400, body := .error authRequired }, w)) ∧
    (∀ (id : Option Nat) (req : DeleteReq),
      req.currentEmail.missing ∨ req.currentPassword.missing →
      delete id req w = ({ status := 400, body := .error authRequired }, w)) := by
  refine ⟨?_, ?_, ?_, ?_⟩
  · rintro req (h | h)
    · simp [login, truthy_of_missing h]
    · cases h1 : req.semail.truthy <;> simp [login, h1, truthy_of_missing h]
  · rintro req (h | h | h)
    · simp [register, truthy_of_missing h]
    · cases h1 : req.sname.truthy <;> simp [register, h1, truthy_of_missing h]
    · cases h1 : req.sname.truthy <;> cases h2 : req.semail.truthy <;>
        simp [register, h1, h2, truthy_of_missing h]
  · rintro id req (h | h)
    · simp [update, truthy_of_missing h]
    · cases h1 : req.currentEmail.truthy <;> simp [update, h1, truthy_of_missing h]
  · rintro id req (h | h)
    · simp [delete, truthy_of_missing h]
    · cases h1 : req.currentEmail.truthy <;> simp [delete, h1, truthy_of_missing h]

/-- C7, at sample inputs: a login without password and an update whose current
password is empty, each on the table of Ann and Bob with no call logged. -/
theorem missing_fields_rejected_witness :
    login { semail := .str "ann@x.org", spassword := .absent } (World.quiet annBob)
      = ({ status := 400, body := .error "Email and password are required" },
          World.quiet annBob) ∧
    update (some 1) { sname := .str "Zed", semail := .null, spassword := .absent
                      currentEmail := .str "ann@x.org", currentPassword := .str "" }
        (World.quiet annBob)
      = ({ status := 400, body := .error authRequired }, World.quiet annBob) :=
  ⟨(missing_fields_rejected (World.quiet annBob)).1 _ (Or.inr (Or.inl rfl)),
   (missing_fields_rejected (World.quiet annBob)).2.2.1 _ _ (Or.inr (Or.inr (Or.inr rfl)))⟩

/-! ## Update -/

theorem truthy_none_iff (f : Field) : f.truthy = none ↔ f.missing := by
  constructor
  · intro h
    cases f with
    | absent => exact Or.inl rfl
    | null => exact Or.inr (Or.inl rfl)
    | str s =>
      by_cases hs : s = ""
      · subst hs
        exact Or.inr (Or.inr rfl)
      · simp [Field.truthy, hs] at h
  · exact truthy_of_missing

theorem written_overwrite (f : Field) (old : String) :
    f.written old (overwrite f.truthy old) := by
  cases f with
  | absent => exact Or.inl ⟨Or.inl rfl, rfl⟩
  | null => exact Or.inl ⟨Or.inr (Or.inl rfl), rfl⟩
  | str s =>
    by_cases h : s = ""
    · subst h
      exact Or.inl ⟨Or.inr (Or.inr rfl), rfl⟩
    · exact Or.inr ⟨s, h, rfl, by simp [Field.truthy, h, overwrite]⟩

/-- The patch of a request is `{}` exactly when the three fields are missing. -/
theorem patchOf_isEmpty (sname semail spassword : Field) :
    (patchOf sname semail spassword).isEmpty = true
      ↔ sname.missing ∧ semail.missing ∧ spassword.missing := by
  simp [patchOf, Patch.isEmpty, Option.isNone_iff_eq_none, truthy_none_iff, and_assoc]

theorem apply_of_isEmpty (p : Patch) (h : p.isEmpty = true) (x : Student) : p.apply x = x := by
  simp only [Patch.isEmpty, Bool.and_eq_true, Option.isNone_iff_eq_none] at h
  obtain ⟨⟨h1, h2⟩, h3⟩ := h
  simp [Patch.apply, overwrite, h1, h2, h3]

/-- The credential query of update and delete selects the row whose key and
credentials are presented. -/
theorem auth_filter (db : Store) (r : Student) (hr : r ∈ db.rows) :
    db.rows.filter (matchesAll [.id (some r.id), .semail r.semail, .spassword r.spassword])
      = [r] :=
  filter_by_key Student.id db.key hr _ (by simp [matchesAll, Cond.holds])
    (fun x _ hx => by
      simp only [matchesAll, Cond.holds, List.all_cons, List.all_nil, Bool.and_true,
        Bool.and_eq_true, beq_iff_eq] at hx
      exact (Option.some.inj hx.1).symm)

/-- A filter on the key alone selects the row of that key. -/
theorem key_filter (db : Store) (r : Student) (hr : r ∈ db.rows) :
    db.rows.filter (matchesAll [.id (some r.id)]) = [r] :=
  filter_by_key Student.id db.key hr _ (by simp [matchesAll, Cond.holds])
    (fun x _ hx => by
      simp only [matchesAll, Cond.holds, List.all_cons, List.all_nil, Bool.and_true,
        beq_iff_eq] at hx
      exact (Option.some.inj hx).symm)

/-- In a table, the row of a key is the only row with that key. -/
theorem eq_of_id_eq (db : Store) {r x : Student} (hr : r ∈ db.rows) (hx : x ∈ db.rows)
    (hid : x.id = r.id) : x = r := by
  have h1 := filter_by_key Student.id db.key hr (fun y => y.id == r.id) (by simp)
    (fun y _ hy => by simpa using hy)
  have h2 : x ∈ db.rows.filter (fun y => y.id == r.id) :=
    List.mem_filter.mpr ⟨hx, by simp [hid]⟩
  rw [h1, List.mem_singleton] at h2
  exact h2

theorem update_rows (db : Store) (p : Patch) (i : Nat) :
    (db.update p [.id (some i)]).rows
      = db.rows.map (fun x => if x.id = i then p.apply x else x) := by
  unfold Store.update
  apply List.map_congr_left
  intro x _
  by_cases h : x.id = i
  · simp [matchesAll, Cond.holds, h]
  · have h2 : ¬ i = x.id := fun e => h e.symm
    simp [matchesAll, Cond.holds, h, h2]

/-- Update with the credentials of the addressed row and at least one column to
write, every call carried out. -/
theorem update_authorised (db : Store) (r : Student) (hr : r ∈ db.rows)
    (sname semail spassword : Field)
    (hsome : (patchOf sname semail spassword).isEmpty = false) (log : List Call) :
    update (some r.id)
        { sname := sname, semail := semail, spassword := spassword
          currentEmail := .str r.semail, currentPassword := .str r.spassword }
        { db := db, faults := [], log := log }
      = ({ status := 200
           body := .withStudent "Student updated successfully"
             (some ((patchOf sname semail spassword).apply r)) },
         { db := db.update (patchOf sname semail spassword) [.id (some r.id)]
           faults := []
           log := log ++ [.select [.id (some r.id), .semail r.semail, .spassword r.spassword]]
             ++ [.update (patchOf sname semail spassword) [.id (some r.id)]] }) := by
  have hf := db.filled r hr
  have hsome2 : Patch.isEmpty ⟨sname.truthy, semail.truthy, spassword.truthy⟩ = false := hsome
  simp [update, truthy_str hf.2.1, truthy_str hf.2.2, send_quiet, exec, auth_filter db r hr,
    key_filter db r hr, single_one, hsome2, patchOf]

/-- Update with the credentials of the addressed row and no column to write,
every call carried out: the update call returns no row and the handler throws. -/
theorem update_authorised_empty (db : Store) (r : Student) (hr : r ∈ db.rows)
    (sname semail spassword : Field)
    (hnone : (patchOf sname semail spassword).isEmpty = true) (log : List Call) :
    update (some r.id)
        { sname := sname, semail := semail, spassword := spassword
          currentEmail := .str r.semail, currentPassword := .str r.spassword }
        { db := db, faults := [], log := log }
      = ({ status := 500, body := .error singleError },
         { db := db
           faults := []
           log := log ++ [.select [.id (some r.id), .semail r.semail, .spassword r.spassword]]
             ++ [.update (patchOf sname semail spassword) [.id (some r.id)]] }) := by
  have hf := db.filled r hr
  have hnone2 : Patch.isEmpty ⟨sname.truthy, semail.truthy, spassword.truthy⟩ = true := hnone
  simp [update, truthy_str hf.2.1, truthy_str hf.2.2, send_quiet, exec, auth_filter db r hr,
    single_one, single_nil, hnone2, patchOf]

/-- The table after an update with the credentials of the addressed row: the row
of that key patched, every other row as it was. -/
theorem update_authorised_rows (db : Store) (r : Student) (hr : r ∈ db.rows)
    (sname semail spassword : Field) :
    (update (some r.id)
        { sname := sname, semail := semail, spassword := spassword
          currentEmail := .str r.semail, currentPassword := .str r.spassword }
        (World.quiet db)).2.db.rows
      = db.rows.map (fun x =>
          if x.id = r.id then (patchOf sname semail spassword).apply x else x) := by
  cases h : (patchOf sname semail spassword).isEmpty
  · rw [World.quiet, update_authorised db r hr _ _ _ h, update_rows]
  · rw [World.quiet, update_authorised_empty db r hr _ _ _ h]
    simp [apply_of_isEmpty _ h]

/-- C4. Update applies only the fields present. For a row `r` of the table,
update at its id with its email and password as current credentials and every
call carried out: with a non-empty new name `n` and no `semail`, `spassword` it
answers 200 with `r` under the name `n`, and the table afterwards is the old one
with that name changed in the row of that id only. For any `sname`, `semail`,
`spassword` the table afterwards is the old one with `r` replaced by a row `u` of
the same id in which each column is overwritten when its field is a non-empty
text and kept when its field is missing; update answers 200 with `u` when some
field is supplied, and 500 when none is. -/
theorem update_applies_present_fields (db : Store) (r : Student) (hr : r ∈ db.rows)
    (n : String) (hn : n ≠ "") (sname semail spassword : Field) :
    ((update (some r.id)
        { sname := .str n, semail := .absent, spassword := .absent
          currentEmail := .str r.semail, currentPassword := .str r.spassword }
        (World.quiet db)).1
      = { status := 200
          body := .withStudent "Student updated successfully"
            (some { id := r.id, sname := n, semail := r.semail, spassword := r.spassword }) } ∧
     (update (some r.id)
        { sname := .str n, semail := .absent, spassword := .absent
          currentEmail := .str r.semail, currentPassword := .str r.spassword }
        (World.quiet db)).2.db.rows
      = db.rows.map (fun x => if x.id = r.id then
          { id := x.id, sname := n, semail := x.semail, spassword := x.spassword } else x)) ∧
    (∃ u : Student,
      u.id = r.id ∧ sname.written r.sname u.sname ∧ semail.written r.semail u.semail ∧
      spassword.written r.spassword u.spassword ∧
      (update (some r.id)
          { sname := sname, semail := semail, spassword := spassword
            currentEmail := .str r.semail, currentPassword := .str r.spassword }
          (World.quiet db)).2.db.rows
        = db.rows.map (fun x => if x = r then u else x) ∧
      (¬ (sname.missing ∧ semail.missing ∧ spassword.missing) →
        (update (some r.id)
            { sname := sname, semail := semail, spassword := spassword
              currentEmail := .str r.semail, currentPassword := .str r.spassword }
            (World.quiet db)).1
          = { status := 200, body := .withStudent "Student updated successfully" (some u) }) ∧
      (sname.missing ∧ semail.missing ∧ spassword.missing →
        (update (some r.id)
            { sname := sname, semail := semail, spassword := spassword
              currentEmail := .str r.semail, currentPassword := .str r.spassword }
            (World.quiet db)).1
          = { status := 500, body := .error singleError })) := by
  have hname : (patchOf (.str n) .absent .absent).isEmpty = false := by
    simp [patchOf, Patch.isEmpty, Field.truthy, hn]
  refine ⟨⟨?_, ?_⟩, ?_⟩
  · rw [World.quiet, update_authorised db r hr _ _ _ hname]
    simp [patchOf, Field.truthy, hn, Patch.apply, overwrite]
  · rw [update_authorised_rows db r hr]
    simp [patchOf, Field.truthy, hn, Patch.apply, overwrite]
  · refine ⟨(patchOf sname semail spassword).apply r, rfl, written_overwrite _ _,
      written_overwrite _ _, written_overwrite _ _, ?_, ?_, ?_⟩
    · rw [update_authorised_rows db r hr]
      apply List.map_congr_left
      intro x hx
      by_cases h : x = r
      · simp [h]
      · have hid : x.id ≠ r.id := fun hid => h (eq_of_id_eq db hr hx hid)
        simp [h, hid]
    · intro hsome
      have h : (patchOf sname semail spassword).isEmpty = false := by
        rw [← Bool.not_eq_true, patchOf_isEmpty]
        exact hsome
      rw [World.quiet, update_authorised db r hr _ _ _ h]
    · intro hnone
      have h := (patchOf_isEmpty sname semail spassword).mpr hnone
      rw [World.quiet, update_authorised_empty db r hr _ _ _ h]

/-- C4, at a sample input: Ann renames herself on the table of Ann and Bob. -/
theorem update_applies_present_fields_witness :
    (update (some 1)
        { sname := .str "Anna", semail := .absent, spassword := .absent
          currentEmail := .str "ann@x.org", currentPassword := .str "pw1" }
        (World.quiet annBob)).1
      = { status := 200
          body := .withStudent "Student updated successfully"
            (some { id := 1, sname := "Anna", semail := "ann@x.org", spassword := "pw1" }) } ∧
    (update (some 1)
        { sname := .str "Anna", semail := .absent, spassword := .absent
          currentEmail := .str "ann@x.org", currentPassword := .str "pw1" }
        (World.quiet annBob)).2.db.rows
      = [{ id := 1, sname := "Anna", semail := "ann@x.org", spassword := "pw1" }, bob] :=
  ⟨(update_applies_present_fields annBob ann (by decide) "Anna" (by decide)
      .absent .absent .absent).1.1,
   ((update_applies_present_fields annBob ann (by decide) "Anna" (by decide)
      .absent .absent .absent).1.2).trans (by decide)⟩

/-! ## Delete and lookup -/

theorem delete_rows (db : Store) (i : Nat) :
    (db.delete [.id (some i)]).rows = db.rows.filter (fun x => decide (x.id ≠ i)) := by
  unfold Store.delete
  apply List.filter_congr
  intro x _
  by_cases h : x.id = i
  · simp [matchesAll, Cond.holds, h]
  · have h2 : ¬ i = x.id := fun e => h e.symm
    simp [matchesAll, Cond.holds, h, h2]

/-- Lookup of a key that no row has answers 404, whether the service fails the
query or not. -/
theorem search_unknown (w : World) (j : Nat) (hj : ∀ x ∈ w.db.rows, x.id ≠ j) :
    (search (some j) w).1 = { status := 404, body := .error "Student not found" } := by
  have hnil : w.db.rows.filter (matchesAll [.id (some j)]) = [] := by
    rw [List.filter_eq_nil_iff]
    intro x hx
    have := hj x hx
    simp only [matchesAll, Cond.holds, List.all_cons, List.all_nil, Bool.and_true, beq_iff_eq]
    intro h
    exact this (Option.some.inj h).symm
  have herr : ∃ m, (send (.select [.id (some j)]) w).1.error = some m := by
    unfold send
    split
    · exact ⟨_, rfl⟩
    · exact ⟨singleError, by simp [exec, hnil, single_nil]⟩
  obtain ⟨m, hm⟩ := herr
  simp [search, hm]

/-- Delete with the credentials of the addressed row, every call carried out. -/
theorem delete_authorised (db : Store) (r : Student) (hr : r ∈ db.rows) (log : List Call) :
    delete (some r.id) { currentEmail := .str r.semail, currentPassword := .str r.spassword }
        { db := db, faults := [], log := log }
      = ({ status := 200, body := .message "Student deleted successfully" },
         { db := db.delete [.id (some r.id)]
           faults := []
           log := log ++ [.select [.id (some r.id), .semail r.semail, .spassword r.spassword]]
             ++ [.delete [.id (some r.id)]] }) := by
  have hf := db.filled r hr
  simp [delete, truthy_str hf.2.1, truthy_str hf.2.2, send_quiet, exec, auth_filter db r hr,
    single_one]

/-- C6. Delete removes exactly the addressed row. For a row `r` of the table,
delete at its id with its email and password as current credentials and every
call carried out answers 200 "Student deleted successfully"; the table afterwards
holds the old rows other than the one of that id, each as it was; the lookup of
that id that follows answers 404. Lookup of an id that no row has answers 404. -/
theorem delete_removes_record (db : Store) (r : Student) (hr : r ∈ db.rows) :
    (delete (some r.id) { currentEmail := .str r.semail, currentPassword := .str r.spassword }
        (World.quiet db)).1
      = { status := 200, body := .message "Student deleted successfully" } ∧
    (delete (some r.id) { currentEmail := .str r.semail, currentPassword := .str r.spassword }
        (World.quiet db)).2.db.rows
      = db.rows.filter (fun x => decide (x.id ≠ r.id)) ∧
    (∀ x, x ∈ (delete (some r.id)
          { currentEmail := .str r.semail, currentPassword := .str r.spassword }
          (World.quiet db)).2.db.rows ↔ x ∈ db.rows ∧ x ≠ r) ∧
    (search (some r.id)
        (delete (some r.id)
          { currentEmail := .str r.semail, currentPassword := .str r.spassword }
          (World.quiet db)).2).1
      = { status := 404, body := .error "Student not found" } ∧
    (∀ (w : World) (j : Nat), (∀ x ∈ w.db.rows, x.id ≠ j) →
      (search (some j) w).1 = { status := 404, body := .error "Student not found" }) := by
  have hrows := delete_rows db r.id
  rw [World.quiet, delete_authorised db r hr]
  refine ⟨rfl, hrows, ?_, ?_, search_unknown⟩
  · intro x
    simp only [hrows, List.mem_filter, decide_eq_true_eq]
    constructor
    · rintro ⟨hx, hne⟩
      exact ⟨hx, fun h => hne (by rw [h])⟩
    · rintro ⟨hx, hne⟩
      exact ⟨hx, fun hid => hne (eq_of_id_eq db hr hx hid)⟩
  · apply search_unknown
    intro x hx
    simp only [hrows, List.mem_filter, decide_eq_true_eq] at hx
    exact hx.2

/-- C6, at a sample input: Bob deletes his row from the table of Ann and Bob, and
the lookup of id 2 that follows answers 404. -/
theorem delete_removes_record_witness :
    (delete (some 2) { currentEmail := .str "bob@x.org", currentPassword := .str "pw2" }
        (World.quiet annBob)).1
      = { status := 200, body := .message "Student deleted successfully" } ∧
    (delete (some 2) { currentEmail := .str "bob@x.org", currentPassword := .str "pw2" }
        (World.quiet annBob)).2.db.rows = [ann] ∧
    (search (some 2)
        (delete (some 2) { currentEmail := .str "bob@x.org", currentPassword := .str "pw2" }
          (World.quiet annBob)).2).1
      = { status := 404, body := .error "Student not found" } :=
  ⟨(delete_removes_record annBob bob (by decide)).1,
   (delete_removes_record annBob bob (by decide)).2.1,
   (delete_removes_record annBob bob (by decide)).2.2.2.1⟩

/-! ## Failing calls -/

/-- C8, as stated, fails: the service fails the credential query of login with
the message "fetch failed", and login answers 401 "Invalid credentials", not 500
with that message. -/
theorem login_failed_query_401 :
    login { semail := .str "ann@x.org", spassword := .str "pw1" }
        { db := annBob, faults := [some "fetch failed"], log := [] }
      = ({ status := 401, body := .error "Invalid credentials" },
         { db := annBob, faults := []
           log := [.select [.semail "ann@x.org", .spassword "pw1"]] }) := by
  rfl

/-- C8, amended. On a well-formed request, whatever the table holds: a failing
credential or lookup query answers 401 in login, 404 in lookup and 403 in update
and delete, for any non-empty credentials, those of a stored row included; a
failing insert of register (after an existence check that found no row), a
failing update call of update and a failing delete call of delete (after a
credential query that found the row) answer 500 with the message of the failure
as error. In each case the failed call is the last one issued and the table is
unchanged. -/
theorem failed_call_response (db : Store) (msg : String) (rest : List (Option String))
    (log : List Call) :
    (∀ e p : String, e ≠ "" → p ≠ "" →
      login { semail := .str e, spassword := .str p }
          { db := db, faults := some msg :: rest, log := log }
        = ({ status := 401, body := .error "Invalid credentials" },
           { db := db, faults := rest, log := log ++ [.select [.semail e, .spassword p]] })) ∧
    (∀ j : Nat,
      search (some j) { db := db, faults := some msg :: rest, log := log }
        = ({ status := 404, body := .error "Student not found" },
           { db := db, faults := rest, log := log ++ [.select [.id (some j)]] })) ∧
    (∀ (id : Option Nat) (e p : String) (sname semail spassword : Field), e ≠ "" → p ≠ "" →
      update id { sname := sname, semail := semail, spassword := spassword
                  currentEmail := .str e, currentPassword := .str p }
          { db := db, faults := some msg :: rest, log := log }
        = ({ status := 403, body := .error authFailed },
           { db := db, faults := rest
             log := log ++ [.select [.id id, .semail e, .spassword p]] })) ∧
    (∀ (id : Option Nat) (e p : String), e ≠ "" → p ≠ "" →
      delete id { currentEmail := .str e, currentPassword := .str p }
          { db := db, faults := some msg :: rest, log := log }
        = ({ status := 403, body := .error authFailed },
           { db := db, faults := rest
             log := log ++ [.select [.id id, .semail e, .spassword p]] })) ∧
    (∀ (n e p : String) (hn : n ≠ "") (he : e ≠ "") (hp : p ≠ ""),
      (∀ x ∈ db.rows, x.semail ≠ e) →
      register { sname := .str n, semail := .str e, spassword := .str p }
          { db := db, faults := none :: some msg :: rest, log := log }
        = ({ status := 500, body := .error msg },
           { db := db, faults := rest
             log := log ++ [.select [.semail e]] ++ [.insert ⟨n, hn⟩ ⟨e, he⟩ ⟨p, hp⟩] })) ∧
    (∀ r ∈ db.rows, ∀ sname semail spassword : Field,
      update (some r.id)
          { sname := sname, semail := semail, spassword := spassword
            currentEmail := .str r.semail, currentPassword := .str r.spassword }
          { db := db, faults := none :: some msg :: rest, log := log }
        = ({ status := 500, body := .error msg },
           { db := db, faults := rest
             log := log ++ [.select [.id (some r.id), .semail r.semail, .spassword r.spassword]]
               ++ [.update (patchOf sname semail spassword) [.id (some r.id)]] })) ∧
    (∀ r ∈ db.rows,
      delete (some r.id) { currentEmail := .str r.semail, currentPassword := .str r.spassword }
          { db := db, faults := none :: some msg :: rest, log := log }
        = ({ status := 500, body := .error msg },
           { db := db, faults := rest
             log := log ++ [.select [.id (some r.id), .semail r.semail, .spassword r.spassword]]
               ++ [.delete [.id (some r.id)]] })) := by
  refine ⟨?_, ?_, ?_, ?_, ?_, ?_, ?_⟩
  · intro e p he hp
    simp [login, truthy_str he, truthy_str hp, send_fail]
  · intro j
    simp [search, send_fail]
  · intro id e p sname semail spassword he hp
    simp [update, truthy_str he, truthy_str hp, send_fail]
  · intro id e p he hp
    simp [delete, truthy_str he, truthy_str hp, send_fail]
  · intro n e p hn he hp hnew
    have hnil : db.rows.filter (matchesAll [.semail e]) = [] := by
      rw [List.filter_eq_nil_iff]
      intro x hx
      simpa [matchesAll, Cond.holds] using hnew x hx
    simp [register, truthy_str hn, truthy_str he, truthy_str hp, send_ok, send_fail, exec,
      hnil, single_nil]
  · intro r hr sname semail spassword
    have hf := db.filled r hr
    simp [update, truthy_str hf.2.1, truthy_str hf.2.2, send_ok, send_fail, exec,
      auth_filter db r hr, single_one, patchOf]
  · intro r hr
    have hf := db.filled r hr
    simp [delete, truthy_str hf.2.1, truthy_str hf.2.2, send_ok, send_fail, exec,
      auth_filter db r hr, single_one]

/-- C8, amended, at sample inputs: the service fails the credential query of a
login with the email and password of Ann, and it fails the update call of Ann
after carrying out her credential query, each time with "fetch failed". -/
theorem failed_call_response_witness :
    login { semail := .str "ann@x.org", spassword := .str "pw1" }
        { db := annBob, faults := [some "fetch failed"], log := [] }
      = ({ status := 401, body := .error "Invalid credentials" },
         { db := annBob, faults := []
           log := [] ++ [.select [.semail "ann@x.org", .spassword "pw1"]] }) ∧
    update (some ann.id)
        { sname := .str "Anna", semail := .absent, spassword := .absent
          currentEmail := .str ann.semail, currentPassword := .str ann.spassword }
        { db := annBob, faults := [none, some "fetch failed"], log := [] }
      = ({ status := 500, body := .error "fetch failed" },
         { db := annBob, faults := []
           log := [] ++ [.select [.id (some ann.id), .semail ann.semail,
                                  .spassword ann.spassword]]
             ++ [.update (patchOf (.str "Anna") .absent .absent) [.id (some ann.id)]] }) :=
  ⟨(failed_call_response annBob "fetch failed" [] []).1 "ann@x.org" "pw1" (by decide)
      (by decide),
   (failed_call_response annBob "fetch failed" [] []).2.2.2.2.2.1 ann (by decide)
      (.str "Anna") .absent .absent⟩

/-! ## Email uniqueness -/

/-- Rows selected by their email out of a table without repeated emails are at
most one. -/
theorem email_filter_short (db : Store) (hu : EmailsUnique db) (e : String) :
    db.rows.filter (matchesAll [.semail e]) = [] ∨
    ∃ r, r ∈ db.rows ∧ r.semail = e ∧ db.rows.filter (matchesAll [.semail e]) = [r] := by
  by_cases h : ∃ r ∈ db.rows, r.semail = e
  · obtain ⟨r, hr, hre⟩ := h
    refine Or.inr ⟨r, hr, hre, ?_⟩
    exact filter_by_key Student.semail hu hr _ (by simp [matchesAll, Cond.holds, hre])
      (fun x _ hx => by
        simp only [matchesAll, Cond.holds, List.all_cons, List.all_nil, Bool.and_true,
          beq_iff_eq] at hx
        rw [hx, hre])
  · refine Or.inl ?_
    rw [List.filter_eq_nil_iff]
    intro x hx hm
    simp only [matchesAll, Cond.holds, List.all_cons, List.all_nil, Bool.and_true,
      beq_iff_eq] at hm
    exact h ⟨x, hx, hm⟩

/-- Inserting a row under an email that no row carries keeps the emails free of
repetition. -/
theorem insert_emails_unique (db : Store) (hu : EmailsUnique db) (n e p : Text)
    (hnil : db.rows.filter (matchesAll [.semail e.val]) = []) :
    EmailsUnique (db.insert n e p) := by
  unfold EmailsUnique Store.insert
  rw [List.filter_eq_nil_iff] at hnil
  simp only [List.map_append, List.map_cons, List.map_nil]
  rw [List.nodup_append]
  refine ⟨hu, by simp, ?_⟩
  intro a ha hb
  rw [List.mem_singleton] at hb
  subst hb
  obtain ⟨x, hx, hxe⟩ := List.mem_map.mp ha
  exact hnil x hx (by simp [matchesAll, Cond.holds, hxe])

/-- A call that the service does not fail is carried out. -/
theorem send_carried_out (c : Call) (w : World)
    (hok : ∀ m rest, w.faults ≠ some m :: rest) :
    send c w
      = ((exec c w.db).1,
         { db := (exec c w.db).2, faults := w.faults.tail, log := w.log ++ [c] }) := by
  unfold send
  split
  next m rest h => exact absurd h (hok m rest)
  next => rfl

/-- When the service carries out the existence check, register keeps the emails
of the table free of repetition, whatever it answers and whether or not the
insert fails. -/
theorem register_keeps_emails_unique (req : RegisterReq) (w : World)
    (hok : ∀ m rest, w.faults ≠ some m :: rest) (hu : EmailsUnique w.db) :
    EmailsUnique (register req w).2.db := by
  unfold register
  split
  next sname semail spassword _ _ _ =>
    rw [send_carried_out _ w hok]
    rcases email_filter_short w.db hu semail.val with hnil | ⟨r, _, _, hone⟩
    · have hins : ∀ w1 : World, w1.db = w.db →
          EmailsUnique (send (.insert sname semail spassword) w1).2.db := by
        intro w1 hdb
        unfold send
        split
        · simpa only [hdb] using hu
        · simpa only [exec, hdb] using insert_emails_unique w.db hu sname semail spassword hnil
      simp only [exec, hnil, single_nil]
      split <;> exact hins _ rfl
    · simpa only [exec, hone, single_one] using hu
  next => exact hu

/-- C9. The service fails the existence check of register with "fetch failed"
and carries out the insert: register reads no existing row, inserts a second row
under the email of Ann and answers 201; the emails were free of repetition
before and are not afterwards. -/
theorem register_failed_check_duplicates :
    EmailsUnique annBob ∧
    (register { sname := .str "Cy", semail := .str "ann@x.org", spassword := .str "pw3" }
        { db := annBob, faults := [some "fetch failed"], log := [] }).1
      = { status := 201
          body := .withStudent "Student added successfully"
            (some { id := 3, sname := "Cy", semail := "ann@x.org", spassword := "pw3" }) } ∧
    (register { sname := .str "Cy", semail := .str "ann@x.org", spassword := .str "pw3" }
        { db := annBob, faults := [some "fetch failed"], log := [] }).2.db.rows
      = [ann, bob, { id := 3, sname := "Cy", semail := "ann@x.org", spassword := "pw3" }] ∧
    ¬ EmailsUnique
      (register { sname := .str "Cy", semail := .str "ann@x.org", spassword := .str "pw3" }
        { db := annBob, faults := [some "fetch failed"], log := [] }).2.db := by
  decide

/-- C10. Update does not check the new email against the other rows: on the
table of Ann and Bob, whose emails differ, Bob updates with his own credentials
and the email of Ann as new `semail`; update answers 200 and the table then
holds two rows with the same email. -/
theorem update_breaks_email_uniqueness :
    ∃ (db : Store) (id : Option Nat) (req : UpdateReq) (a b : Student),
      EmailsUnique db ∧
      (∃ r ∈ db.rows, some r.id = id ∧ req.currentEmail = .str r.semail ∧
        req.currentPassword = .str r.spassword) ∧
      (update id req (World.quiet db)).1.status = 200 ∧
      a ∈ (update id req (World.quiet db)).2.db.rows ∧
      b ∈ (update id req (World.quiet db)).2.db.rows ∧
      a ≠ b ∧ a.semail = b.semail ∧
      ¬ EmailsUnique (update id req (World.quiet db)).2.db :=
  ⟨annBob, some 2,
    { sname := .absent, semail := .str "ann@x.org", spassword := .absent
      currentEmail := .str "bob@x.org", currentPassword := .str "pw2" },
    ann, { id := 2, sname := "Bob", semail := "ann@x.org", spassword := "pw2" },
    by decide, ⟨bob, by decide, rfl, rfl, rfl⟩, by decide, by decide, by decide, by decide,
    by decide, by decide⟩

end StudentApi
